import Mathlib

/-!
Verification of the github-api HTTP facade (Go, `main.go`).

The repository exposes three routes over the remote GitHub API:
repository count, commit comment, and pull-request comment. This file is a
shallow embedding of `main.go`: each Go function becomes a Lean definition
with the same structure, remote-API calls become explicit result parameters
(the handler only observes the returned value/error pair), and the HTTP
response writer becomes an explicit `Response` state value threaded through
the handler exactly as the Go code writes to it.
-/

namespace GithubApi

/-- A JSON value, as produced by the `encoding/json` encoder calls in
`main.go` (only integers, strings, and string-keyed objects occur). -/
inductive Json where
  | num (n : Int)
  | str (s : String)
  | obj (fields : List (String × Json))

/-- One chunk written to the HTTP response body: a JSON-encoded value
(from `json.NewEncoder(w).Encode`) or plain text (the router's built-in
not-found body). -/
inductive Chunk where
  | json (j : Json)
  | text (s : String)

/-- The observable state of the Go `http.ResponseWriter`: the status code
written so far (`none` before any write; the server sends 200 when the
handler finishes without writing one), the response headers, and the list
of body chunks in the order written. -/
structure Response where
  status : Option Nat
  headers : List (String × String)
  body : List Chunk

/-- The response writer handed to a handler at the start of a request:
nothing written yet. -/
def Response.init : Response := { status := none, headers := [], body := [] }

/-- The status code the client observes: 200 unless the handler wrote an
explicit status (Go sends `200 OK` for a handler that returns silently). -/
def Response.effectiveStatus (w : Response) : Nat := w.status.getD 200

/-- Go `w.WriteHeader code`: records the status code; a second call is a
no-op once a status is committed. -/
def Response.writeHeader (w : Response) (code : Nat) : Response :=
  match w.status with
  | none => { w with status := some code }
  | some _ => w

/-- Writing a body chunk: commits the status (200 if none was set, as the
Go server does on first write) and appends the chunk. -/
def Response.write (w : Response) (c : Chunk) : Response :=
  { w with status := some w.effectiveStatus, body := w.body ++ [c] }

/-- Go `w.Header().Set k v`: replace any existing value for the key. -/
def Response.setHeader (w : Response) (k v : String) : Response :=
  { w with headers := w.headers.filter (fun p => p.1 ≠ k) ++ [(k, v)] }

/-- The JSON error envelope built by `WriteError` (main.go lines 152-154):
a single-key object mapping "error" to the error message. -/
def errEnvelope (msg : String) : Chunk :=
  Chunk.json (Json.obj [("error", Json.str msg)])

/-- Whether a body chunk is an error envelope (a JSON object with an
"error" key), used to count error responses a handler has written. -/
def Chunk.isErrorEnvelope : Chunk → Bool
  | Chunk.json (Json.obj fields) => fields.any (fun p => p.1 == "error")
  | _ => false

/-- Number of error envelopes in a response body. -/
def errorEnvelopeCount (body : List Chunk) : Nat :=
  (body.filter Chunk.isErrorEnvelope).length

/-- Embedding of `WriteError` (main.go lines 149-158): on a non-nil error
write status 500, encode the error envelope, and report `true`; on a nil
error do nothing and report `false`. Go errors are modelled as
`Option String` (the message), nil being `none`. -/
def WriteError (w : Response) (err : Option String) : Bool × Response :=
  match err with
  | some msg =>
      let w := w.writeHeader 500
      let w := w.write (errEnvelope msg)
      (true, w)
  | none => (false, w)

/-- A repository, as returned by the remote listing call. Only the count of
the returned slice is observed by the code, so one representative field
suffices. -/
structure Repository where
  name : String

/-- The value/error pair returned by the remote call
`data.Client.Repositories.List(ctx, owner, nil)` (main.go line 81). -/
structure ListReposResult where
  repos : List Repository
  err : Option String

/-- A remote user object, as returned by `Users.Get`. Only its identity is
passed through into comments, so one representative field suffices. -/
structure User where
  login : String

/-- The value/error pair returned by the remote call
`data.Client.Users.Get(ctx, owner)` (main.go lines 99 and 127); the user
pointer may be nil, hence `Option`. -/
structure GetUserResult where
  user : Option User
  err : Option String

/-- The mux route variables of a request, as a key/value list;
`mux.Vars(r)` in Go. -/
def Vars := List (String × String)

/-- Go map indexing `vars[k]`: a missing key yields the zero value "". -/
def getVar (vars : Vars) (k : String) : String :=
  match vars.lookup k with
  | some v => v
  | none => ""

/-- Embedding of `GetCount` (main.go lines 76-90): run `WriteError` on the
listing error and stop if it handled one; otherwise set the content type
and JSON-encode the length of the returned repository slice (the encoder
cannot fail on an integer, so the final `WriteError` sees a nil error). -/
def GetCount (vars : Vars) (listRes : ListReposResult) : Response :=
  let _owner := getVar vars "owner"
  let w := Response.init
  let (handled, w) := WriteError w listRes.err
  if handled then w
  else
    let w := w.setHeader "Content-Type" "application/json; charset=utf-8"
    let w := w.write (Chunk.json (Json.num listRes.repos.length))
    let (_, w) := WriteError w none
    w

/-- The `github.RepositoryComment` value built by `CommitComment`
(main.go lines 105-110); every Go field is a pointer, hence `Option`. -/
structure RepositoryComment where
  commitID : Option String
  user : Option User
  body : Option String
  position : Option Int

/-- The arguments of the remote call
`Repositories.CreateComment(ctx, owner, repo, commit, newComment)`
(main.go line 111), recorded as the handler's outbound effect. -/
structure CreateCommentCall where
  owner : String
  repo : String
  commit : String
  comment : RepositoryComment

/-- The hardcoded placeholder message of `CommitComment`
(main.go line 104). -/
def commitCommentMsg : String :=
  "Commit message... replace me with message taken from request body."

/-- Embedding of `CommitComment` (main.go lines 92-113): resolve the user
for the path owner; on error, `WriteError` responds and the handler stops
with no creation call; otherwise build the comment and call
`CreateComment`, whose result (`createErr`) is discarded unread (line 111
binds nothing). Returns the response and the creation call made, if any. -/
def CommitComment (vars : Vars) (userRes : GetUserResult)
    (createErr : Option String) : Response × Option CreateCommentCall :=
  let owner := getVar vars "owner"
  let repo := getVar vars "repo"
  let commit := getVar vars "commit"
  let w := Response.init
  let (handled, w) := WriteError w userRes.err
  if handled then (w, none)
  else
    let msg := commitCommentMsg
    let newComment : RepositoryComment :=
      { commitID := some commit
        user := userRes.user
        body := some msg
        position := some 1 }
    let _ := createErr
    (w, some { owner := owner, repo := repo, commit := commit, comment := newComment })

/-- Decimal value of a digit list (most significant first). -/
def digitsVal (l : List Char) : Nat :=
  l.foldl (fun n c => 10 * n + (c.toNat - 48)) 0

/-- Embedding of the Go standard library `strconv.Atoi` on a 64-bit
platform, which `PullComment` calls on the `number` and `position` route
variables (main.go lines 120 and 123). Per the strconv documentation,
`Atoi s` is `ParseInt(s, 10, 0)`: strip one optional sign; if the rest is
empty or has a non-digit, return 0 with a syntax error; if the signed
value overflows a 64-bit int, return the saturated extreme
(2^63 - 1, or -2^63 when negative) with a range error; otherwise the
value and no error. Error messages are abbreviated; the call sites
discard the error value anyway. -/
def Atoi (s : String) : Int × Option String :=
  let stripped : Bool × List Char :=
    match s.data with
    | '-' :: rest => (true, rest)
    | '+' :: rest => (false, rest)
    | l => (false, l)
  let neg := stripped.1
  let digits := stripped.2
  if digits.isEmpty || !(digits.all Char.isDigit) then
    (0, some "invalid syntax")
  else if neg then
    if digitsVal digits > 2 ^ 63 then
      (-(2 ^ 63 : Int), some "value out of range")
    else
      (-(digitsVal digits : Int), none)
  else
    if digitsVal digits ≥ 2 ^ 63 then
      ((2 ^ 63 : Int) - 1, some "value out of range")
    else
      ((digitsVal digits : Int), none)

/-- The `github.PullRequestComment` value built by `PullComment`
(main.go lines 132-139); every Go field is a pointer, hence `Option`. -/
structure PullRequestComment where
  body : Option String
  user : Option User
  path : Option String
  position : Option Int
  commitID : Option String

/-- The arguments of the remote call
`PullRequests.CreateComment(ctx, owner, repo, number, newComment)`
(main.go line 141), recorded as the handler's outbound effect. -/
structure PullCreateCall where
  owner : String
  repo : String
  number : Int
  comment : PullRequestComment

/-- The value/error pair returned by `PullRequests.CreateComment`; the
handler prints both to the process log (main.go lines 142-145). -/
structure PullCreateResult where
  comment : Option PullRequestComment
  err : Option String

/-- A line printed to the process log by `fmt.Println` in `PullComment`:
either the creation error (line 143) or the returned comment (line 145). -/
inductive LogItem where
  | errLine (e : String)
  | cmtLine (c : Option PullRequestComment)

/-- The hardcoded message of `PullComment` (main.go line 125). -/
def pullCommentMsg : String := "hard coded comment message"

/-- Embedding of `PullComment` (main.go lines 115-147): read the route
variables (the pull route defines no `repo` variable, so `vars["repo"]`
is ""), parse `number` and `position` with `Atoi` discarding the error,
resolve the user; on error `WriteError` responds and the handler stops
with no creation call; otherwise build the comment, call `CreateComment`,
and print its error (if any) and its returned value to the process log.
Returns the response, the creation call made (if any), and the log. -/
def PullComment (vars : Vars) (userRes : GetUserResult)
    (createRes : PullCreateResult) :
    Response × Option PullCreateCall × List LogItem :=
  let owner := getVar vars "owner"
  let repo := getVar vars "repo"
  let number := (Atoi (getVar vars "number")).1
  let commit := getVar vars "commit"
  let path := getVar vars "path"
  let position := (Atoi (getVar vars "position")).1
  let msg := pullCommentMsg
  let w := Response.init
  let (handled, w) := WriteError w userRes.err
  if handled then (w, none, [])
  else
    let newComment : PullRequestComment :=
      { body := some msg
        user := userRes.user
        path := some path
        position := some position
        commitID := some commit }
    let call : PullCreateCall :=
      { owner := owner, repo := repo, number := number, comment := newComment }
    let log :=
      (match createRes.err with
       | some e => [LogItem.errLine e]
       | none => []) ++ [LogItem.cmtLine createRes.comment]
    (w, some call, log)

/-- Whether a string matches the mux pattern `[0-9]+`: nonempty and all
ASCII digits. -/
def isDigits (s : String) : Bool :=
  !s.isEmpty && s.data.all Char.isDigit

/-- Split a request path into its segments, dropping empty ones (the
router cleans duplicate slashes): "/a/b/c" becomes ["a", "b", "c"]. -/
def splitPathAux : List Char → List Char → List String → List String
  | [], cur, out =>
      if cur.isEmpty then out else out ++ [String.mk cur.reverse]
  | c :: rest, cur, out =>
      if c = '/' then
        if cur.isEmpty then splitPathAux rest [] out
        else splitPathAux rest [] (out ++ [String.mk cur.reverse])
      else splitPathAux rest (c :: cur) out

/-- Segments of a request path string. -/
def splitPath (p : String) : List String := splitPathAux p.data [] []

/-- Match of the route `GET /{owner}/repos/count` (main.go line 45): three
segments, the default mux variable pattern `[^/]+` requires a nonempty
`owner` segment. Returns the route variables on success. -/
def matchGetCount (method : String) (segs : List String) : Option Vars :=
  match segs with
  | [owner, s1, s2] =>
      if method == "GET" && !owner.isEmpty && s1 == "repos" && s2 == "count" then
        some [("owner", owner)]
      else none
  | _ => none

/-- Match of the route `POST /{owner}/repos/{repo}/{commit}/comment`
(main.go line 46). -/
def matchCommitComment (method : String) (segs : List String) : Option Vars :=
  match segs with
  | [owner, s1, repo, commit, s2] =>
      if method == "POST" && !owner.isEmpty && s1 == "repos" && !repo.isEmpty
          && !commit.isEmpty && s2 == "comment" then
        some [("owner", owner), ("repo", repo), ("commit", commit)]
      else none
  | _ => none

/-- Match of the route
`POST /{owner}/pulls/{number:[0-9]+}/{commit}/{path}/{position:[0-9]+}/comment`
(main.go line 47): seven segments, `number` and `position` must match
`[0-9]+`, the other variables match the default `[^/]+` (nonempty, and a
segment can never contain a slash). -/
def matchPullComment (method : String) (segs : List String) : Option Vars :=
  match segs with
  | [owner, s1, number, commit, path, position, s2] =>
      if method == "POST" && !owner.isEmpty && s1 == "pulls" && isDigits number
          && !commit.isEmpty && !path.isEmpty && isDigits position
          && s2 == "comment" then
        some [("owner", owner), ("number", number), ("commit", commit),
              ("path", path), ("position", position)]
      else none
  | _ => none

/-- The route a request is dispatched to, with its extracted variables, or
the router's not-found fallback. -/
inductive RouteTarget where
  | getCount (vars : Vars)
  | commitComment (vars : Vars)
  | pullComment (vars : Vars)
  | notFound

/-- Embedding of the dispatch of the router built by `NewRouter`
(main.go lines 42-50): try the three registered routes in registration
order; an unmatched request falls to the router's not-found handler. -/
def routerMatch (method : String) (segs : List String) : RouteTarget :=
  match matchGetCount method segs with
  | some vars => RouteTarget.getCount vars
  | none =>
      match matchCommitComment method segs with
      | some vars => RouteTarget.commitComment vars
      | none =>
          match matchPullComment method segs with
          | some vars => RouteTarget.pullComment vars
          | none => RouteTarget.notFound

/-- The response of the router's built-in not-found handler
(`http.NotFound`): 404 with a plain-text body. -/
def notFoundResponse : Response :=
  { status := some 404
    headers := [("Content-Type", "text/plain; charset=utf-8"),
                ("X-Content-Type-Options", "nosniff")]
    body := [Chunk.text "404 page not found\n"] }

/-- The results the remote API would return for the single remote call of
each handler, supplied as the environment of one request. -/
structure RemoteResults where
  listRes : ListReposResult
  userRes : GetUserResult
  commitCreateErr : Option String
  pullCreateRes : PullCreateResult

/-- Everything observable about one handled request: the HTTP response,
the outbound comment-creation calls made (if any), and the process log. -/
structure ServeOutcome where
  response : Response
  commitCall : Option CreateCommentCall
  pullCall : Option PullCreateCall
  log : List LogItem

/-- One request through router and handler, on pre-split path segments. -/
def serveSegs (method : String) (segs : List String) (api : RemoteResults) :
    ServeOutcome :=
  match routerMatch method segs with
  | RouteTarget.getCount vars =>
      { response := GetCount vars api.listRes
        commitCall := none, pullCall := none, log := [] }
  | RouteTarget.commitComment vars =>
      let (w, call) := CommitComment vars api.userRes api.commitCreateErr
      { response := w, commitCall := call, pullCall := none, log := [] }
  | RouteTarget.pullComment vars =>
      let (w, call, log) := PullComment vars api.userRes api.pullCreateRes
      { response := w, commitCall := none, pullCall := call, log := log }
  | RouteTarget.notFound =>
      { response := notFoundResponse
        commitCall := none, pullCall := none, log := [] }

/-- One request through router and handler, from the request path. -/
def serve (method path : String) (api : RemoteResults) : ServeOutcome :=
  serveSegs method (splitPath path) api

/-- The oauth2 token source built from the access token
(main.go lines 56-58). -/
structure TokenSource where
  accessToken : String

/-- The `*http.Client` returned by `oauth2.NewClient`
(main.go line 59); the pointer is modelled as `Option` at the call site. -/
structure HttpClient where
  source : TokenSource

/-- The git-data sub-service of the GitHub client. -/
structure GitService where
  unit : Unit

/-- The `*github.Client` returned by `github.NewClient`
(main.go line 64); it always carries a git sub-service. -/
structure GithubClient where
  httpClient : HttpClient
  git : GitService

/-- Modelled from the oauth2 library: `oauth2.NewClient` returns
`&http.Client{...}` and therefore never returns nil, for any token
source. -/
def oauth2NewClient (ts : TokenSource) : Option HttpClient :=
  some { source := ts }

/-- Modelled from the go-github library: `github.NewClient` returns
`&Client{...}` with all sub-services populated and therefore never
returns nil. -/
def githubNewClient (tc : HttpClient) : Option GithubClient :=
  some { httpClient := tc, git := { unit := () } }

/-- The `datastore` struct (main.go lines 18-22); the Go fields are
pointers, hence `Option`. -/
structure Datastore where
  client : Option GithubClient
  service : Option GitService

/-- Embedding of `New` (main.go lines 53-74): build the token source and
transport; return the "Access Token Invalid" error if the transport is
nil, the "Error creating Github client" error if the client is nil, and
otherwise the datastore holding the client and its git sub-service. -/
def New (authToken : String) : Option Datastore × Option String :=
  let ts : TokenSource := { accessToken := authToken }
  match oauth2NewClient ts with
  | none => (none, some "Access Token Invalid")
  | some tc =>
      match githubNewClient tc with
      | none => (none, some "Error creating Github client")
      | some client =>
          (some { client := some client, service := some client.git }, none)

/-- The fatal-startup guard of `main` (main.go lines 29-32): the process
terminates when `New` errors, returns a nil datastore, or one whose
client is nil. -/
def startupFails (authToken : String) : Bool :=
  let (data, err) := New authToken
  err.isSome ||
    (match data with
     | none => true
     | some d => d.client.isNone)

/-- C1: when the remote repository-listing call succeeds and returns a
first page of N repositories, the count handler responds 200 with content
type `application/json; charset=utf-8` and a JSON body equal to the
integer N, for any route variables. -/
theorem getCount_success (vars : Vars) (listRes : ListReposResult)
    (h : listRes.err = none) :
    GetCount vars listRes =
      { status := some 200
        headers := [("Content-Type", "application/json; charset=utf-8")]
        body := [Chunk.json (Json.num listRes.repos.length)] } := by
  simp [GetCount, WriteError, h, Response.init, Response.setHeader, Response.write,
    Response.effectiveStatus]

/-- Witness for C1: the spec scenario of an owner with 8 repositories on
the first page yields 200 and JSON body 8. -/
theorem getCount_success_witness :
    ({ repos := [⟨"r1"⟩, ⟨"r2"⟩, ⟨"r3"⟩, ⟨"r4"⟩, ⟨"r5"⟩, ⟨"r6"⟩, ⟨"r7"⟩, ⟨"r8"⟩],
       err := none } : ListReposResult).err = none ∧
    GetCount [("owner", "octocat")]
        { repos := [⟨"r1"⟩, ⟨"r2"⟩, ⟨"r3"⟩, ⟨"r4"⟩, ⟨"r5"⟩, ⟨"r6"⟩, ⟨"r7"⟩, ⟨"r8"⟩],
          err := none } =
      { status := some 200
        headers := [("Content-Type", "application/json; charset=utf-8")]
        body := [Chunk.json (Json.num 8)] } :=
  ⟨rfl, getCount_success _ _ rfl⟩

/-- C2: for both comment handlers, when user resolution succeeds the
response is 200 with an empty body for every possible outcome of the
comment-creation call, so a creation error is never surfaced in the HTTP
response. -/
theorem comment_handlers_ok_regardless (vars : Vars) (userRes : GetUserResult)
    (createErr : Option String) (createRes : PullCreateResult)
    (h : userRes.err = none) :
    ((CommitComment vars userRes createErr).1.effectiveStatus = 200 ∧
      (CommitComment vars userRes createErr).1.body = []) ∧
    ((PullComment vars userRes createRes).1.effectiveStatus = 200 ∧
      (PullComment vars userRes createRes).1.body = []) := by
  simp [CommitComment, PullComment, WriteError, h, Response.init, Response.effectiveStatus]

/-- Witness for C2: both handlers return 200 with an empty body even when
the comment-creation call fails. -/
theorem comment_handlers_ok_regardless_witness :
    ({ user := some { login := "octocat" }, err := none } : GetUserResult).err = none ∧
    (((CommitComment [("owner", "octocat"), ("repo", "myrepo"), ("commit", "abc123")]
          { user := some { login := "octocat" }, err := none }
          (some "create failed")).1.effectiveStatus = 200 ∧
      (CommitComment [("owner", "octocat"), ("repo", "myrepo"), ("commit", "abc123")]
          { user := some { login := "octocat" }, err := none }
          (some "create failed")).1.body = []) ∧
     ((PullComment [("owner", "octocat"), ("repo", "myrepo"), ("commit", "abc123")]
          { user := some { login := "octocat" }, err := none }
          { comment := none, err := some "create failed" }).1.effectiveStatus = 200 ∧
      (PullComment [("owner", "octocat"), ("repo", "myrepo"), ("commit", "abc123")]
          { user := some { login := "octocat" }, err := none }
          { comment := none, err := some "create failed" }).1.body = [])) :=
  ⟨rfl, comment_handlers_ok_regardless
    [("owner", "octocat"), ("repo", "myrepo"), ("commit", "abc123")]
    { user := some { login := "octocat" }, err := none }
    (some "create failed")
    { comment := none, err := some "create failed" } rfl⟩

/-- C3: for both comment handlers, when user resolution fails the response
is 500 with a JSON body containing the key "error", and no
comment-creation call is made. -/
theorem comment_handlers_user_error (vars : Vars) (userRes : GetUserResult)
    (e : String) (createErr : Option String) (createRes : PullCreateResult)
    (h : userRes.err = some e) :
    CommitComment vars userRes createErr = (⟨some 500, [], [errEnvelope e]⟩, none) ∧
    PullComment vars userRes createRes = (⟨some 500, [], [errEnvelope e]⟩, none, []) := by
  simp [CommitComment, PullComment, WriteError, h, Response.init, Response.writeHeader,
    Response.write, Response.effectiveStatus]

/-- Witness for C3: the spec scenario of a user lookup failing with
"not found" yields a 500 error envelope and no creation call in both
handlers. -/
theorem comment_handlers_user_error_witness :
    ({ user := none, err := some "not found" } : GetUserResult).err = some "not found" ∧
    (CommitComment [("owner", "octocat"), ("repo", "myrepo"), ("commit", "abc123")]
        { user := none, err := some "not found" } none =
      (⟨some 500, [], [errEnvelope "not found"]⟩, none) ∧
     PullComment [("owner", "octocat"), ("repo", "myrepo"), ("commit", "abc123")]
        { user := none, err := some "not found" } { comment := none, err := none } =
      (⟨some 500, [], [errEnvelope "not found"]⟩, none, [])) :=
  ⟨rfl, comment_handlers_user_error
    [("owner", "octocat"), ("repo", "myrepo"), ("commit", "abc123")]
    { user := none, err := some "not found" } "not found" none
    { comment := none, err := none } rfl⟩

/-- C4: when the remote repository-listing call fails, the count handler
responds 500 with a JSON object containing the key "error" and returns at
once: no content type header and no count value are written. -/
theorem getCount_remote_error (vars : Vars) (listRes : ListReposResult) (e : String)
    (h : listRes.err = some e) :
    GetCount vars listRes = ⟨some 500, [], [errEnvelope e]⟩ := by
  simp [GetCount, WriteError, h, Response.init, Response.writeHeader, Response.write,
    Response.effectiveStatus]

/-- Witness for C4: a failed listing call yields exactly the 500 error
envelope. -/
theorem getCount_remote_error_witness :
    ({ repos := [], err := some "remote failure" } : ListReposResult).err =
      some "remote failure" ∧
    GetCount [("owner", "octocat")] { repos := [], err := some "remote failure" } =
      ⟨some 500, [], [errEnvelope "remote failure"]⟩ :=
  ⟨rfl, getCount_remote_error _ _ _ rfl⟩

/-- C5: `WriteError` on a non-nil error sets status 500, appends the
`{"error": message}` JSON envelope, and returns true; on a nil error it
returns false and leaves the response unchanged; consequently every
handler writes at most one error envelope per invocation. -/
theorem writeError_contract :
    (∀ (w : Response) (msg : String), w.status = none →
        WriteError w (some msg) =
          (true, { w with status := some 500, body := w.body ++ [errEnvelope msg] })) ∧
    (∀ w : Response, WriteError w none = (false, w)) ∧
    (∀ (vars : Vars) (listRes : ListReposResult),
        errorEnvelopeCount (GetCount vars listRes).body ≤ 1) ∧
    (∀ (vars : Vars) (userRes : GetUserResult) (createErr : Option String),
        errorEnvelopeCount (CommitComment vars userRes createErr).1.body ≤ 1) ∧
    (∀ (vars : Vars) (userRes : GetUserResult) (createRes : PullCreateResult),
        errorEnvelopeCount (PullComment vars userRes createRes).1.body ≤ 1) := by
  refine ⟨?_, ?_, ?_, ?_, ?_⟩
  · intro w msg h
    simp [WriteError, Response.writeHeader, h, Response.write, Response.effectiveStatus]
  · intro w
    rfl
  · intro vars listRes
    cases h : listRes.err <;>
      simp [GetCount, WriteError, h, errorEnvelopeCount, Response.init, Response.write,
        Response.setHeader, Response.writeHeader, errEnvelope, Chunk.isErrorEnvelope,
        Response.effectiveStatus]
  · intro vars userRes createErr
    cases h : userRes.err <;>
      simp [CommitComment, WriteError, h, errorEnvelopeCount, Response.init, Response.write,
        Response.writeHeader, errEnvelope, Chunk.isErrorEnvelope, Response.effectiveStatus]
  · intro vars userRes createRes
    cases h : userRes.err <;>
      simp [PullComment, WriteError, h, errorEnvelopeCount, Response.init, Response.write,
        Response.writeHeader, errEnvelope, Chunk.isErrorEnvelope, Response.effectiveStatus]

/-- Witness for C5: on a fresh response, a non-nil error produces exactly
the 500 error envelope and the handled flag. -/
theorem writeError_contract_witness :
    Response.init.status = none ∧
    WriteError Response.init (some "boom") =
      (true, { status := some 500, headers := [], body := [errEnvelope "boom"] }) :=
  ⟨rfl, writeError_contract.1 Response.init "boom" rfl⟩

/-- C6: a pull-comment request whose number or position segment contains a
non-digit character never reaches the handler: the router dispatches it to
its not-found response, and no handler effect occurs. -/
theorem pull_route_nonnumeric_not_found (owner number commit path position : String)
    (api : RemoteResults)
    (h : (∃ c ∈ number.data, ¬ c.isDigit) ∨ (∃ c ∈ position.data, ¬ c.isDigit)) :
    serveSegs "POST" [owner, "pulls", number, commit, path, position, "comment"] api =
      { response := notFoundResponse, commitCall := none, pullCall := none, log := [] } := by
  have hnd : isDigits number = false ∨ isDigits position = false := by
    rcases h with ⟨c, hc, hcd⟩ | ⟨c, hc, hcd⟩
    · left
      have : number.data.all Char.isDigit = false := by
        cases hall : number.data.all Char.isDigit
        · rfl
        · exact absurd (List.all_eq_true.mp hall c hc) (by simpa using hcd)
      simp [isDigits, this]
    · right
      have : position.data.all Char.isDigit = false := by
        cases hall : position.data.all Char.isDigit
        · rfl
        · exact absurd (List.all_eq_true.mp hall c hc) (by simpa using hcd)
      simp [isDigits, this]
  rcases hnd with h1 | h1 <;>
    simp [serveSegs, routerMatch, matchGetCount, matchCommitComment, matchPullComment, h1]

/-- Witness for C6: a pull-comment request with number "4x2" receives the
not-found response. -/
theorem pull_route_nonnumeric_not_found_witness :
    ((∃ c ∈ "4x2".data, ¬ c.isDigit) ∨ (∃ c ∈ "5".data, ¬ c.isDigit)) ∧
    serveSegs "POST" ["octocat", "pulls", "4x2", "abc123", "main.go", "5", "comment"]
        { listRes := { repos := [], err := none }
          userRes := { user := none, err := none }
          commitCreateErr := none
          pullCreateRes := { comment := none, err := none } } =
      { response := notFoundResponse, commitCall := none, pullCall := none, log := [] } :=
  ⟨Or.inl ⟨'x', by decide, by decide⟩,
   pull_route_nonnumeric_not_found _ _ _ _ _ _ (Or.inl ⟨'x', by decide, by decide⟩)⟩

/-- Case analysis of the outcomes of `Atoi`: syntax error with value 0, a
clean parse, or a range error with the saturated 64-bit extreme. -/
theorem atoi_cases (s : String) :
    Atoi s = (0, some "invalid syntax") ∨
    (∃ n : Int, Atoi s = (n, none)) ∨
    Atoi s = (2 ^ 63 - 1, some "value out of range") ∨
    Atoi s = (-(2 ^ 63), some "value out of range") := by
  simp only [Atoi]
  split
  · left; rfl
  · split
    · split
      · right; right; right; rfl
      · right; left; exact ⟨_, rfl⟩
    · split
      · right; right; left; rfl
      · right; left; exact ⟨_, rfl⟩

/-- Counterexample to C7: on the all-digit input "99999999999999999999"
the parse errors (range error) yet the resulting value is the saturated
64-bit maximum 9223372036854775807, not zero, and the handler proceeds
with that value in the submitted comment. -/
theorem atoi_zero_counterexample :
    (Atoi "99999999999999999999").2.isSome = true ∧
    (Atoi "99999999999999999999").1 = 9223372036854775807 ∧
    (Atoi "99999999999999999999").1 ≠ 0 ∧
    (PullComment [("owner", "o"), ("number", "99999999999999999999"),
                  ("commit", "c"), ("path", "p"), ("position", "5")]
        { user := some { login := "o" }, err := none }
        { comment := none, err := none }).2.1 =
      some { owner := "o", repo := "", number := 9223372036854775807
             comment := { body := some pullCommentMsg, user := some { login := "o" }
                          path := some "p", position := some 5, commitID := some "c" } } :=
  ⟨rfl, rfl, by decide, rfl⟩

/-- C7 as amended: number and position are parsed with the Go `Atoi` and
the error is discarded; on a parse error the value silently becomes 0 for
syntax errors, or the saturated 64-bit extreme for range errors, and the
handler proceeds with the parsed values rather than rejecting. -/
theorem atoi_fallback_amended :
    (∀ s : String, (Atoi s).2.isSome = true →
        (Atoi s).1 = 0 ∨ (Atoi s).1 = 2 ^ 63 - 1 ∨ (Atoi s).1 = -(2 ^ 63)) ∧
    (∀ (vars : Vars) (userRes : GetUserResult) (createRes : PullCreateResult),
        userRes.err = none →
        (PullComment vars userRes createRes).2.1 =
          some { owner := getVar vars "owner", repo := getVar vars "repo"
                 number := (Atoi (getVar vars "number")).1
                 comment := { body := some pullCommentMsg, user := userRes.user
                              path := some (getVar vars "path")
                              position := some (Atoi (getVar vars "position")).1
                              commitID := some (getVar vars "commit") } }) := by
  constructor
  · intro s h
    rcases atoi_cases s with h1 | ⟨n, h1⟩ | h1 | h1 <;> rw [h1] at h ⊢
    · left; rfl
    · simp at h
    · right; left; rfl
    · right; right; rfl
  · intro vars userRes createRes h
    simp [PullComment, WriteError, h]

/-- Witness for the amended C7: the syntax-invalid input "abc" errors and
yields 0, and the handler with parseable variables proceeds with the
parsed values. -/
theorem atoi_fallback_amended_witness :
    ((Atoi "abc").2.isSome = true ∧
      ((Atoi "abc").1 = 0 ∨ (Atoi "abc").1 = 2 ^ 63 - 1 ∨ (Atoi "abc").1 = -(2 ^ 63))) ∧
    (({ user := some { login := "o" }, err := none } : GetUserResult).err = none ∧
      (PullComment [("owner", "o"), ("number", "7"), ("commit", "c"), ("path", "p"),
            ("position", "9")] { user := some { login := "o" }, err := none }
          { comment := none, err := none }).2.1 =
        some { owner := "o", repo := "", number := 7
               comment := { body := some pullCommentMsg, user := some { login := "o" }
                            path := some "p", position := some 9
                            commitID := some "c" } }) :=
  ⟨⟨rfl, atoi_fallback_amended.1 "abc" rfl⟩,
   ⟨rfl, atoi_fallback_amended.2 _ _ _ rfl⟩⟩

/-- Counterexample to C8: the request path of the claimed scenario
contains a slash inside the file-path segment, so it has eight segments;
the route pattern matches only seven, the request receives the 404
not-found response instead of 200, and no pull-comment creation call is
made, even with a successful user lookup available. -/
theorem pull_scenario_slash_counterexample :
    (serve "POST" "/octocat/pulls/42/abc123/src/main.go/5/comment"
        { listRes := { repos := [], err := none }
          userRes := { user := some { login := "octocat" }, err := none }
          commitCreateErr := none
          pullCreateRes := { comment := none, err := none } }).response.effectiveStatus = 404 ∧
    (serve "POST" "/octocat/pulls/42/abc123/src/main.go/5/comment"
        { listRes := { repos := [], err := none }
          userRes := { user := some { login := "octocat" }, err := none }
          commitCreateErr := none
          pullCreateRes := { comment := none, err := none } }).response.effectiveStatus ≠ 200 ∧
    (serve "POST" "/octocat/pulls/42/abc123/src/main.go/5/comment"
        { listRes := { repos := [], err := none }
          userRes := { user := some { login := "octocat" }, err := none }
          commitCreateErr := none
          pullCreateRes := { comment := none, err := none } }).pullCall = none :=
  ⟨rfl, by decide, rfl⟩

/-- C8 as amended: a file path carrying a slash cannot traverse the route
(such a request gets the not-found response), but for a slash-free path
the scenario holds: POST /octocat/pulls/42/abc123/main.go/5/comment with
successful user lookup responds 200 with an empty body and submits a pull
request comment with number 42, commit "abc123", path "main.go", and
position 5 (and, the route defining no repo variable, repo ""). -/
theorem pull_scenario_amended (u : Option User) :
    serve "POST" "/octocat/pulls/42/abc123/main.go/5/comment"
        { listRes := { repos := [], err := none }
          userRes := { user := u, err := none }
          commitCreateErr := none
          pullCreateRes := { comment := none, err := none } } =
      { response := Response.init
        commitCall := none
        pullCall := some { owner := "octocat", repo := "", number := 42
                           comment := { body := some pullCommentMsg, user := u
                                        path := some "main.go", position := some 5
                                        commitID := some "abc123" } }
        log := [LogItem.cmtLine none] } ∧
    Response.init.effectiveStatus = 200 ∧ Response.init.body = [] :=
  ⟨rfl, rfl, rfl⟩

/-- C9: on successful user resolution, the repository comment submitted by
the commit-comment handler carries exactly the hardcoded placeholder
message, position 1, the resolved user, and the commit id from the path,
against the owner and repo from the path. -/
theorem commitComment_construction (vars : Vars) (userRes : GetUserResult)
    (createErr : Option String) (h : userRes.err = none) :
    (CommitComment vars userRes createErr).2 =
      some { owner := getVar vars "owner", repo := getVar vars "repo"
             commit := getVar vars "commit"
             comment := { commitID := some (getVar vars "commit")
                          user := userRes.user
                          body := some commitCommentMsg
                          position := some 1 } } := by
  simp [CommitComment, WriteError, h]

/-- Witness for C9: the submitted comment for concrete route variables. -/
theorem commitComment_construction_witness :
    ({ user := some { login := "octocat" }, err := none } : GetUserResult).err = none ∧
    (CommitComment [("owner", "octocat"), ("repo", "myrepo"), ("commit", "abc123")]
        { user := some { login := "octocat" }, err := none } none).2 =
      some { owner := "octocat", repo := "myrepo", commit := "abc123"
             comment := { commitID := some "abc123"
                          user := some { login := "octocat" }
                          body := some commitCommentMsg
                          position := some 1 } } :=
  ⟨rfl, commitComment_construction _ _ _ rfl⟩

/-- C10: for every token string, `New` returns a datastore with a non-nil
client and non-nil service and a nil error; both error branches are
unreachable and the startup guard in `main` never fires at the
client-construction stage. -/
theorem new_never_fails (token : String) :
    New token =
      (some { client := some { httpClient := { source := { accessToken := token } }
                               git := { unit := () } }
              service := some { unit := () } }, none) ∧
    startupFails token = false :=
  ⟨rfl, rfl⟩

end GithubApi
